import Mathlib

/-!
Shallow embedding of `src/aiosmtp/protocol.py` (class `SmtpProtocol`).

Byte strings are modelled as `List Char` (all protocol traffic here is
ASCII).  `None`-able Python values become `Option`; Python truthiness of
optional byte strings / ints is made explicit (`optStrTruthy`,
`optIntTruthy`).  Code that can raise returns `Except PyError`.
A coroutine that is created but never awaited (`self.send(...)` without
`await` in `vrfy`) performs none of its effects, so it contributes no
output.
-/

namespace Aiosmtp

abbrev Str := List Char

/-- Convenience for writing concrete byte-string literals. -/
def str (s : String) : Str := s.toList

/-- ASCII whitespace as stripped by Python `bytes.strip()`. -/
def isPySpace (c : Char) : Bool :=
  c = ' ' || c = '\t' || c = '\n' || c = '\r' || c = '\x0b' || c = '\x0c'

def pyLstrip (s : Str) : Str := s.dropWhile isPySpace

def pyRstrip (s : Str) : Str := (s.reverse.dropWhile isPySpace).reverse

def pyStrip (s : Str) : Str := pyRstrip (pyLstrip s)

/-- `bytes.upper()` on one ASCII byte. -/
def toUpperAscii (c : Char) : Char :=
  if 'a' ≤ c && c ≤ 'z' then Char.ofNat (c.toNat - 32) else c

def pyUpper (s : Str) : Str := s.map toUpperAscii

/-- `bytes.find(c)`: index of the first occurrence, `-1` when absent. -/
def pyFind (c : Char) (s : Str) : Int :=
  match s.findIdx? (fun x => x = c) with
  | some i => (i : Int)
  | none => -1

/-- Does `s` start with `p`? -/
def startsWith : Str → Str → Bool
  | _, [] => true
  | [], _ :: _ => false
  | c :: cs, p :: ps => c = p && startsWith cs ps

def strEndsWith (s p : Str) : Bool := startsWith s.reverse p.reverse

/-- `bytes.split(sep)` for a one-byte separator (keeps empty pieces). -/
def pySplitChar (c : Char) : Str → List Str
  | [] => [[]]
  | x :: xs =>
    let r := pySplitChar c xs
    if x = c then [] :: r
    else
      match r with
      | [] => [[x]]
      | h :: t => (x :: h) :: t

/-- Decimal digits of a nonneg number, or `none` when not all digits. -/
def digitsVal (s : Str) : Option Nat :=
  if !s.isEmpty && s.all (fun c => '0' ≤ c && c ≤ '9')
  then some (s.foldl (fun a c => a * 10 + (c.toNat - 48)) 0)
  else none

/-- Python `int(str(v))` on a byte string: optional sign then digits
(whitespace stripped); digit-grouping underscores are not modelled. -/
def pyInt (s : Str) : Option Int :=
  let t := pyStrip s
  match t with
  | '+' :: rest => (digitsVal rest).map (fun n => (n : Int))
  | '-' :: rest => (digitsVal rest).map (fun n => -(n : Int))
  | rest => (digitsVal rest).map (fun n => (n : Int))

/-- `bytes(str(n), 'ascii')` for a Python int. -/
def intToStr (i : Int) : Str :=
  if i < 0 then '-' :: Nat.toDigits 10 i.natAbs else Nat.toDigits 10 i.toNat

def joinWith (sep : Str) : List Str → Str
  | [] => []
  | [x] => x
  | x :: y :: xs => x ++ sep ++ joinWith sep (y :: xs)

/-- Python truthiness of an optional byte string (`None` and `b''` falsy). -/
def optStrTruthy : Option Str → Bool
  | some (_ :: _) => true
  | _ => false

/-- Python truthiness of an optional int (`None` and `0` falsy). -/
def optIntTruthy : Option Int → Bool
  | some n => !(n == 0)
  | none => false

def strTruthy (s : Str) : Bool := !s.isEmpty

/-- Python `dict` as an insertion-ordered association list; overwriting a
key keeps its original position. -/
abbrev PyDict := List (Str × Str)

def dictInsert : PyDict → Str → Str → PyDict
  | [], k, v => [(k, v)]
  | (k', v') :: t, k, v =>
    if k' = k then (k, v) :: t else (k', v') :: dictInsert t k v

def dictDel (d : PyDict) (k : Str) : PyDict :=
  d.filter (fun p => !(p.1 == k))

/-- Exceptions that the embedded code can raise. -/
inductive PyError where
  | keyError
  | attributeError
  | invalidStateError
deriving DecidableEq, Repr

/-- `const.LINE_TERM`.  Modelled from the spec: the `const` module is not
in `src/`; §4.6 fixes CRLF-terminated response lines. -/
def LINE_TERM : Str := ['\r', '\n']

inductive ReadMode where
  | command
  | data
deriving DecidableEq, Repr

/-- The per-connection mutable transaction state of `SmtpProtocol`
(fields `_fqdn`, `_read_mode`, `_helo`, `_sender`, `_recipients`,
`_allowed_recipients`, `_is_esmtp`, `_max_size`, `_message_size`,
`_recipients_truncated`). -/
structure Session where
  fqdn : Str
  readMode : ReadMode
  helo : Option Str
  sender : Option Str
  recipients : List Str
  allowedRecipients : List Str
  isEsmtp : Bool
  maxSize : Option Int
  messageSize : Option Int
  recipientsTruncated : Bool
deriving DecidableEq, Repr

/-- `__init__` (protocol.py lines 25–47).  Line 35 records the
`max_size` configuration in `_max_size`; lines 39–47 then re-initialise
every transaction field, and line 45 unconditionally reassigns
`_max_size = None`, discarding the configuration. -/
def init (fqdn : Str) (max_size : Option Int) : Session :=
  let s : Session :=
    { fqdn := fqdn, readMode := .command, helo := none, sender := none,
      recipients := [], allowedRecipients := [], isEsmtp := false,
      maxSize := max_size, messageSize := none, recipientsTruncated := false }
  { s with
    readMode := .command
    helo := none
    sender := none
    recipients := []
    allowedRecipients := []
    isEsmtp := false
    maxSize := none
    messageSize := none
    recipientsTruncated := false }

/-- `reset_state` (lines 67–76). -/
def reset_state (st : Session) : Session :=
  { st with
    readMode := .command
    helo := none
    sender := none
    recipients := []
    allowedRecipients := []
    isEsmtp := false
    maxSize := none
    messageSize := none
    recipientsTruncated := false }

/-- Observable writes to the client.  `sent` is `self.send` (terminator
appended when missing, then written and drained); `rawWrite` is a bare
`self.writer.write` without terminator handling or drain. -/
inductive Output where
  | sent (line : Str)
  | rawWrite (line : Str)
deriving DecidableEq, Repr

/-- The line actually written by `send` (lines 190–196): the terminator
is appended when the caller omitted it. -/
def sentStr (line : Str) : Str :=
  if strEndsWith line LINE_TERM then line else line ++ LINE_TERM

def sendLine (line : Str) : Output := .sent (sentStr line)

/-- External collaborators: the address parser
(`get_angle_addr` / `get_addr_spec`, with the `if not address` falsiness
collapse of `parse_addr` folded into the `Option`) and the delivery
handler's `verify`. -/
structure Env where
  getAngleAddr : Str → Option Str × Str
  getAddrSpec : Str → Option Str × Str
  verify : Str → Option Str

/-- `strip_keyword` (lines 385–389). -/
def strip_keyword (line keyword : Str) : Str :=
  if startsWith (pyUpper line) (pyUpper keyword)
  then pyStrip (line.drop keyword.length)
  else []

/-- `parse_addr` (lines 391–402); the external parser's token and the
`if not address: return None, rest` collapse live in `Env`. -/
def parse_addr (ext : Env) (maybe_addr : Str) : Option Str × Str :=
  if maybe_addr.isEmpty then (some [], [])
  else if startsWith (pyLstrip maybe_addr) ['<'] then ext.getAngleAddr maybe_addr
  else ext.getAddrSpec maybe_addr

/-- Truthiness of the address slot returned by `parse_addr`
(`None` and `b''` both falsy). -/
def addrTruthy : Option Str → Bool
  | some s => !s.isEmpty
  | none => false

/-- `split_command` (lines 404–410).  `line.strip()` raises
`AttributeError` when the argument is `None`; when the stripped argument
contains a space, `arg[ix + 1]` is an `int` (one byte), so
`arg[ix + 1].strip()` raises `AttributeError` before returning. -/
def split_command (line : Option Str) : Except PyError (Str × Option Str) :=
  match line with
  | none => .error .attributeError
  | some l =>
    let arg := pyStrip l
    let ix := pyFind ' ' arg
    if ix ≥ 0 then .error .attributeError
    else .ok (arg, none)

/-- `parse_mail_params` inner loop: each space-separated pair must
contain `=`; otherwise the whole parse returns `None`. -/
def buildParams : List Str → PyDict → Option PyDict
  | [], d => some d
  | p :: rest, d =>
    let ix := pyFind '=' p
    if ix < 0 then none
    else buildParams rest (dictInsert d (p.take ix.toNat) (p.drop (ix.toNat + 1)))

/-- `parse_mail_params` (lines 412–422). -/
def parse_mail_params (param_line : Str) : Option PyDict :=
  buildParams (pySplitChar ' ' param_line) []

/-- The `for k, v in dict(params).items():` loop of `mail`
(lines 289–302).  It walks a snapshot of the freshly parsed dict while
mutating the dict (`del params[k]`) and `_message_size`; a SIZE value
that fails `int()` breaks out of the loop; a SIZE value at or above a
truthy `_max_size` sends 552 and returns (third component `true`). -/
def mailSizeLoop (maxSize : Option Int) :
    List (Str × Str) → PyDict → Option Int → PyDict × Option Int × Bool
  | [], params, msg => (params, msg, false)
  | (k, v) :: rest, params, msg =>
    if pyUpper k = str "SIZE" then
      match pyInt v with
      | none => (params, msg, false)
      | some n =>
        if optIntTruthy maxSize && decide (maxSize.getD 0 ≤ n) then
          (params, msg, true)
        else
          mailSizeLoop maxSize rest (dictDel params k) (some n)
    else mailSizeLoop maxSize rest params msg

/-- `helo` (lines 202–210). -/
def helo (arg : Option Str) (st : Session) : Session × List Output :=
  if optStrTruthy st.helo then
    (st, [sendLine (str "503 Duplicate HELO/EHLO")])
  else if !optStrTruthy arg then
    (st, [sendLine (str "501 Syntax: HELO hostname")])
  else
    ({ st with isEsmtp := false, helo := arg },
     [sendLine (str "250 " ++ st.fqdn)])

/-- `ehlo` (lines 212–235).  `split_command` can raise; a truthy
`_max_size` adds the `250-SIZE n` capability line. -/
def ehlo (arg : Option Str) (st : Session) :
    Except PyError (Session × List Output) :=
  if optStrTruthy st.helo then
    .ok (st, [sendLine (str "503 Duplicate HELO/EHLO")])
  else
    match split_command arg with
    | .error e => .error e
    | .ok (h, _arg2) =>
      if !strTruthy h then
        .ok (st, [sendLine (str "501 Syntax: EHLO hostname")])
      else
        let lines1 := [str "250-" ++ st.fqdn]
        let lines2 :=
          if optIntTruthy st.maxSize
          then lines1 ++ [str "250-SIZE " ++ intToStr (st.maxSize.getD 0)]
          else lines1
        let respLines := lines2 ++ [str "250 HELP"]
        .ok ({ st with isEsmtp := true, helo := some h },
             [sendLine (joinWith LINE_TERM respLines)])

/-- Insertion into the `_allowed_recipients` set. -/
def setAdd (l : List Str) (x : Str) : List Str :=
  if l.contains x then l else l ++ [x]

/-- `vrfy` (lines 237–254).  With no argument it performs a bare
`writer.write` of an unterminated fragment.  On the verification paths
(lines 251 and 254) `self.send(...)` is written without `await`: the
coroutine is created but never run, so nothing is written. -/
def vrfy (ext : Env) (arg : Option Str) (st : Session) :
    Session × List Output :=
  match arg with
  | none => (st, [.rawWrite (str "501 Syntax: VRFY <")])
  | some a =>
    if st.allowedRecipients.contains a then
      (st, [sendLine (str "252 Cannot verify user, but will accept message and attempt delivery")])
    else
      match ext.verify a with
      | some result => ({ st with allowedRecipients := setAdd st.allowedRecipients result }, [])
      | none => (st, [])

/-- `rset` (lines 256–258); the argument is ignored. -/
def rset (_arg : Option Str) (st : Session) : Session × List Output :=
  (reset_state st, [sendLine (str "250 Ok")])

/-- `mail` (lines 260–309). -/
def mail (ext : Env) (arg : Option Str) (st : Session) :
    Session × List Output :=
  if !optStrTruthy arg then
    (st, [sendLine (str "501 Syntax: MAIL FROM:<address>")])
  else if !optStrTruthy st.helo then
    (st, [sendLine (str "503 Error: Send HELO first")])
  else if optStrTruthy st.sender then
    (st, [sendLine (str "503 Error: Nested MAIL command")])
  else
    let a0 := strip_keyword (arg.getD []) (str "FROM:")
    let pr := parse_addr ext a0
    if !addrTruthy pr.1 then
      (st, [sendLine (str "501 Syntax: MAIL FROM: <address>")])
    else if !st.isEsmtp && !pr.2.isEmpty then
      (st, [sendLine (str "501 Syntax: MAIL FROM: <address>")])
    else if !pr.2.isEmpty then
      match parse_mail_params pr.2 with
      | none => (st, [sendLine (str "501 Syntax: MAIL FROM: <address>")])
      | some d =>
        if d.isEmpty then
          (st, [sendLine (str "501 Syntax: MAIL FROM: <address>")])
        else
          let r := mailSizeLoop st.maxSize d d st.messageSize
          if r.2.2 then
            ({ st with messageSize := r.2.1 },
             [sendLine (str "552 Message size exceeds fixed maximium message size")])
          else if !r.1.isEmpty then
            ({ st with messageSize := r.2.1 },
             [sendLine (str "555 Unrecognized extension")])
          else
            ({ st with messageSize := r.2.1, sender := pr.1 },
             [sendLine (str "250 Ok")])
    else
      ({ st with sender := pr.1 }, [sendLine (str "250 Ok")])

/-- `rcpt` (lines 311–346), including the channel-capacity check of
lines 335–343. -/
def rcpt (ext : Env) (arg : Option Str) (st : Session) :
    Session × List Output :=
  if !optStrTruthy st.helo then
    (st, [sendLine (str "503 Error: Send HELO first")])
  else if !optStrTruthy st.sender then
    (st, [sendLine (str "503 Error: Send MAIL first")])
  else if !optStrTruthy arg then
    (st, [sendLine (str "501 Syntax: RCPT <address>")])
  else
    let a0 := strip_keyword (arg.getD []) (str "TO:")
    let pr := parse_addr ext a0
    if !addrTruthy pr.1 then
      (st, [sendLine (str "501 Syntax: RCPT <address>")])
    else if !pr.2.isEmpty then
      (st, [sendLine (str "555 Unrecognized extension")])
    else
      let addr := pr.1.getD []
      let appendOk : Session × List Output :=
        ({ st with recipients := st.recipients ++ [addr] },
         [sendLine (str "250 Ok")])
      if optIntTruthy st.messageSize && optIntTruthy st.maxSize then
        let m := st.maxSize.getD 0
        let nrecips : Int := (st.recipients.length : Int) + 1
        let total_size := m * nrecips
        if m ≤ total_size then
          ({ st with recipientsTruncated := true },
           [sendLine (str "552 Channel size limit exceeded: " ++ addr)])
        else appendOk
      else appendOk

/-- `data` (lines 348–366). -/
def data (arg : Option Str) (st : Session) : Session × List Output :=
  if optStrTruthy arg then
    (st, [sendLine (str "501 Syntax: Data")])
  else if !optStrTruthy st.helo then
    (st, [sendLine (str "503 Error: Send HELO first")])
  else if !optStrTruthy st.sender then
    (st, [sendLine (str "503 Error: Send MAIL first")])
  else if st.recipients.isEmpty then
    (st, [sendLine (str "503 Error: Need RCPT command")])
  else
    ({ st with readMode := .data },
     [sendLine (str "354 End data with <CRLF>.<CRLF>")])

/-- `noop` (lines 368–372). -/
def noop (arg : Option Str) (st : Session) : Session × List Output :=
  if optStrTruthy arg then
    (st, [sendLine (str "501 Syntax: NOOP")])
  else
    (st, [sendLine (str "250 Ok")])

/-- `quit` (lines 374–380).  The subsequent `close()` touches only
lifecycle state (modelled separately below), not the transaction
fields. -/
def quit (arg : Option Str) (st : Session) : Session × List Output :=
  if optStrTruthy arg then
    (st, [sendLine (str "501 Syntax: QUIT")])
  else
    (st, [sendLine (str "221 Ok")])

/-- `expn` (lines 382–383). -/
def expn (_arg : Option Str) (st : Session) : Session × List Output :=
  (st, [sendLine (str "502 Unimplemented")])

/-- The fixed command set of the dispatch table (lines 49–60). -/
inductive Cmd where
  | helo | ehlo | vrfy | expn | rset | mail | rcpt | data | noop | quit
deriving DecidableEq, Repr

/-- The `COMMANDS` dict as a finite map from keyword to command. -/
def COMMANDS (k : Str) : Option Cmd :=
  if k = str "HELO" then some .helo
  else if k = str "EHLO" then some .ehlo
  else if k = str "VRFY" then some .vrfy
  else if k = str "EXPN" then some .expn
  else if k = str "RSET" then some .rset
  else if k = str "MAIL" then some .mail
  else if k = str "RCPT" then some .rcpt
  else if k = str "DATA" then some .data
  else if k = str "NOOP" then some .noop
  else if k = str "QUIT" then some .quit
  else none

/-- Run the handler bound to a command. -/
def runCmd (c : Cmd) (ext : Env) (arg : Option Str) (st : Session) :
    Except PyError (Session × List Output) :=
  match c with
  | .helo => .ok (helo arg st)
  | .ehlo => ehlo arg st
  | .vrfy => .ok (vrfy ext arg st)
  | .expn => .ok (expn arg st)
  | .rset => .ok (rset arg st)
  | .mail => .ok (mail ext arg st)
  | .rcpt => .ok (rcpt ext arg st)
  | .data => .ok (data arg st)
  | .noop => .ok (noop arg st)
  | .quit => .ok (quit arg st)

/-- `handle_command` (lines 161–174).  `self.COMMANDS[cmd.upper()]`
raises `KeyError` when the keyword is outside the table; the
`else: send(b'500 PEBKAC')` branch is unreachable because every table
value is a (truthy) function object and a missing key raises before the
truthiness test. -/
def handle_command (ext : Env) (line : Str) (st : Session) :
    Except PyError (Session × List Output) :=
  let ix := pyFind ' ' line
  let ca : Str × Option Str :=
    if ix > 0 then (line.take ix.toNat, some (pyStrip (line.drop ix.toNat)))
    else (pyStrip line, none)
  match COMMANDS (pyUpper ca.1) with
  | none => .error .keyError
  | some c => runCmd c ext ca.2 st

/-- What the session loop feeds `read_command` (lines 126–133): either a
line, or the `TooMuchDataError` the stream raises for an overlong line. -/
inductive CommandInput where
  | tooLong
  | line (l : Str)

/-- What the session loop feeds `read_data` (lines 135–142): either a
framed data block, or the stream's length-exceeded condition. -/
inductive DataInput where
  | tooMuchData
  | block (d : Str)

/-- `read_command` (lines 126–133). -/
def read_command (ext : Env) (inp : CommandInput) (st : Session) :
    Except PyError (Session × List Output) :=
  match inp with
  | .tooLong => .ok (st, [sendLine (str "500 Line too long")])
  | .line l => handle_command ext l st

/-- `handle_data` (lines 144–159).  The `ensure_future` hand-off to the
delivery handler is fire-and-forget and does not touch session state. -/
def handle_data (d : Str) (st : Session) : Session × List Output :=
  if optIntTruthy st.maxSize && decide (st.maxSize.getD 0 ≤ (d.length : Int)) then
    (st, [sendLine (str "522 Message exceeds fixed maximum size")])
  else
    let resp := if st.recipientsTruncated then str "250 Some recipients ok"
                else str "250 Ok"
    (reset_state st, [sendLine resp])

/-- `read_data` (lines 135–142). -/
def read_data (inp : DataInput) (st : Session) : Session × List Output :=
  match inp with
  | .tooMuchData => (st, [sendLine (str "552 Message exceeds fixed maximum size")])
  | .block d => handle_data d st

/-- Session states reachable by the loop of `run` (lines 109–124) from a
freshly constructed protocol, through non-raising command and data
steps. -/
inductive Reachable : Session → Prop where
  | init : ∀ fqdn ms, Reachable (init fqdn ms)
  | cmd : ∀ {s s' : Session} (ext : Env) (inp : CommandInput)
      (outs : List Output), Reachable s →
      read_command ext inp s = .ok (s', outs) → Reachable s'
  | data : ∀ {s s' : Session} (inp : DataInput) (outs : List Output),
      Reachable s → read_data inp s = (s', outs) → Reachable s'

/-! ### Lifecycle (close / connection_lost) -/

/-- A one-shot `asyncio.Future`; `set_result` on an already-completed
future raises `InvalidStateError`. -/
structure FutureB where
  done : Bool
deriving DecidableEq, Repr

def setResult (f : FutureB) : Except PyError FutureB :=
  if f.done then .error .invalidStateError else .ok { done := true }

/-- Connection-lifecycle state: `_state` (0 connecting / 1 open /
2 closed) and the `connection_closed` future. -/
structure LifeState where
  lifecycle : Nat
  connectionClosed : FutureB
deriving DecidableEq, Repr

/-- `close` (lines 176–188).  `write_eof` (guarded by `can_write_eof`)
and `writer.close()` are each wrapped in `try ... except Exception:
pass`, so transport errors there are suppressed — the three booleans
model the transport's behaviour and are deliberately ignored.  Line 188
then calls `connection_closed.set_result(None)` unguarded, which raises
`InvalidStateError` whenever the future is already done. -/
def close (canWriteEof writeEofRaises closeRaises : Bool) (ls : LifeState) :
    Except PyError LifeState :=
  let _ := canWriteEof
  let _ := writeEofRaises
  let _ := closeRaises
  match setResult ls.connectionClosed with
  | .error e => .error e
  | .ok f => .ok { ls with connectionClosed := f }

/-- `connection_lost` (lines 97–101): marks the state closed and
completes the `connection_closed` future (again unguarded). -/
def connection_lost (ls : LifeState) : Except PyError LifeState :=
  let ls2 : LifeState := { ls with lifecycle := 2 }
  match setResult ls2.connectionClosed with
  | .error e => .error e
  | .ok f => .ok { ls2 with connectionClosed := f }

/-- A freshly opened connection's lifecycle state. -/
def openLife : LifeState := { lifecycle := 1, connectionClosed := { done := false } }

/-! ### Predicates and concrete fixtures used by the theorems -/

/-- The session-state invariant of §3: `sender` is set only while
`greetingDomain` (`_helo`) is set. -/
def Inv (st : Session) : Prop :=
  optStrTruthy st.sender = true → optStrTruthy st.helo = true

/-- Does a response line carry one of the failure codes 501/503/555? -/
def failCode (l : Str) : Bool :=
  startsWith l (str "501") || startsWith l (str "503") || startsWith l (str "555")

/-- An external world in which address parsing and verification always
fail; several commands never consult it. -/
def extNone : Env :=
  { getAngleAddr := fun _ => (none, [])
    getAddrSpec := fun _ => (none, [])
    verify := fun _ => none }

/-- A delivery handler that resolves every candidate address to itself. -/
def extVerifyOk : Env :=
  { getAngleAddr := fun _ => (none, [])
    getAddrSpec := fun _ => (none, [])
    verify := fun a => some a }

/-- A session sitting in Data read mode with (hypothetically) configured
size fields, mid-transaction. -/
def stData : Session :=
  { fqdn := str "localhost", readMode := .data, helo := some (str "client"),
    sender := some (str "a@b"), recipients := [str "r@s"],
    allowedRecipients := [], isEsmtp := true, maxSize := some 10,
    messageSize := some 5, recipientsTruncated := false }

/-- A session with every resettable field populated. -/
def exSession : Session :=
  { fqdn := str "localhost", readMode := .command, helo := some (str "client"),
    sender := some (str "a@b"), recipients := [str "r@s"],
    allowedRecipients := [str "v@w"], isEsmtp := true, maxSize := some 7,
    messageSize := some 3, recipientsTruncated := true }

/-- A greeted EHLO session ready for `MAIL`. -/
def stC9 : Session :=
  { fqdn := str "localhost", readMode := .command, helo := some (str "client"),
    sender := none, recipients := [], allowedRecipients := [],
    isEsmtp := true, maxSize := none, messageSize := none,
    recipientsTruncated := false }

/-- An address parser that resolves `<a@b>` with trailing parameters
`SIZE=5 X=1`. -/
def extC9 : Env :=
  { getAngleAddr := fun _ => (some (str "a@b"), str "SIZE=5 X=1")
    getAddrSpec := fun _ => (none, [])
    verify := fun _ => none }

/-- A session after EHLO and MAIL, with (hypothetically) both size
fields populated and no recipients yet. -/
def stW8 : Session :=
  { fqdn := str "localhost", readMode := .command, helo := some (str "client"),
    sender := some (str "s@t"), recipients := [], allowedRecipients := [],
    isEsmtp := true, maxSize := some 10, messageSize := some 5,
    recipientsTruncated := false }

/-- An address parser that resolves `<a@b>` with no trailing text. -/
def extW8 : Env :=
  { getAngleAddr := fun _ => (some (str "a@b"), [])
    getAddrSpec := fun _ => (none, [])
    verify := fun _ => none }

/-- A plain-HELO (non-ESMTP) session ready for `MAIL`. -/
def stW10 : Session :=
  { fqdn := str "localhost", readMode := .command, helo := some (str "client"),
    sender := none, recipients := [], allowedRecipients := [],
    isEsmtp := false, maxSize := none, messageSize := none,
    recipientsTruncated := false }

/-- An address parser that resolves `<a@b>` with trailing parameter text
`SIZE=99`. -/
def extW10 : Env :=
  { getAngleAddr := fun _ => (some (str "a@b"), str "SIZE=99")
    getAddrSpec := fun _ => (none, [])
    verify := fun _ => none }

/-- A freshly constructed session (no configured maximum size). -/
def s0 : Session := init (str "localhost") none


/-! ### Claim theorems -/

/-- C1: the spec claims an unknown keyword yields a single 500 response
with state unchanged and no exception; in fact
`self.COMMANDS[cmd.upper()]` raises `KeyError` for any keyword outside
the table (the `500 PEBKAC` fallback is dead code), so dispatching
`BOGUS` raises instead of responding. -/
theorem handle_command_unknown_raises (ext : Env) (st : Session) :
    handle_command ext (str "BOGUS") st = .error .keyError := rfl

/-- C2: the spec claims a successful EHLO reply carries a `SIZE n`
capability line exactly when a maximum size was configured; in fact
`__init__` reassigns `_max_size = None` after recording the
configuration, so a session constructed with `max_size = 1000` still
answers EHLO without any SIZE line. -/
theorem ehlo_size_capability_lost :
    (init (str "localhost") (some 1000)).maxSize = none ∧
    handle_command extNone (str "EHLO example.com")
        (init (str "localhost") (some 1000)) =
      .ok ({ init (str "localhost") (some 1000) with
               isEsmtp := true
               helo := some (str "example.com") },
           [Output.sent (str "250-localhost\r\n250 HELP\r\n")]) :=
  ⟨rfl, rfl⟩

/-- C3: the spec claims exactly one response is emitted per dispatched
command; in fact a `VRFY` that consults the delivery handler calls
`self.send(...)` without `await` on both outcomes, emitting zero
responses, and an `EHLO` whose argument contains a space raises
`AttributeError` inside `split_command` (`arg[ix + 1]` is an `int`),
also emitting nothing. -/
theorem vrfy_and_spaced_ehlo_emit_no_response :
    vrfy extVerifyOk (some (str "z@y")) (init (str "localhost") none) =
      ({ init (str "localhost") none with allowedRecipients := [str "z@y"] },
       []) ∧
    vrfy extNone (some (str "z@y")) (init (str "localhost") none) =
      (init (str "localhost") none, []) ∧
    handle_command extNone (str "EHLO a b") (init (str "localhost") none) =
      .error .attributeError :=
  ⟨rfl, rfl, rfl⟩

/-- C4: the spec claims a size failure in the data phase replies with a
size-exceeded error and returns the read mode to Command without a
reset; in fact both failure paths (`TooMuchDataError` from the stream,
and the defensive `len(data) >= self._max_size` check) reply 552/522 and
leave the session state — including `_read_mode = READ_MODE_DATA` —
completely unchanged, so the loop will read another data block. -/
theorem data_size_failure_stays_in_data_mode :
    (read_data .tooMuchData stData =
        (stData, [Output.sent (str "552 Message exceeds fixed maximum size\r\n")]) ∧
      stData.readMode = ReadMode.data) ∧
    read_data (.block (str "0123456789AB")) stData =
      (stData, [Output.sent (str "522 Message exceeds fixed maximum size\r\n")]) :=
  ⟨⟨rfl, rfl⟩, rfl⟩

/-- C5: the spec claims `close` is idempotent and never raises even
after `connection_lost`; in fact the transport errors are indeed
suppressed, but line 188's unguarded
`connection_closed.set_result(None)` raises `InvalidStateError` on a
second `close`, or on a `close` after `connection_lost` has already
completed the future. -/
theorem close_not_idempotent :
    close true true true openLife =
      .ok { lifecycle := 1, connectionClosed := { done := true } } ∧
    (close true false false openLife >>= close true false false) =
      .error .invalidStateError ∧
    (connection_lost openLife >>= close true false false) =
      .error .invalidStateError :=
  ⟨rfl, rfl, rfl⟩

/-- C6 counterexample: the claim says a reset does not modify the
`verifiedAddresses` cache or the configured `maxSize`; in fact `RSET`
(via `reset_state`, which reassigns `_allowed_recipients = set()` and
`_max_size = None`) clears both. -/
theorem rset_clears_verified_addresses :
    (rset none exSession).1.allowedRecipients ≠ exSession.allowedRecipients ∧
    (rset none exSession).1.maxSize ≠ exSession.maxSize := by
  refine ⟨?_, ?_⟩ <;> decide

/-- C6 amended: a full reset clears `sender`, `recipients`,
`declaredMessageSize`, `recipientsTruncated`, `isExtended` and
`greetingDomain`, and additionally clears `verifiedAddresses` and
`maxSize` and forces the read mode back to Command; only the configured
`fqdn` survives.  `RSET` performs exactly this reset. -/
theorem reset_clears_all_transaction_fields (st : Session) (arg : Option Str) :
    reset_state st =
      { fqdn := st.fqdn, readMode := .command, helo := none, sender := none,
        recipients := [], allowedRecipients := [], isEsmtp := false,
        maxSize := none, messageSize := none, recipientsTruncated := false } ∧
    (rset arg st).1 = reset_state st :=
  ⟨rfl, rfl⟩

/-- C9 counterexample: the claim says a MAIL rejected with 555 for an
unrecognized parameter leaves `declaredMessageSize` unset; in fact the
parameter loop records `_message_size` from a valid `SIZE=5` parameter
before discovering the unrecognized `X=1` and replying 555. -/
theorem mail_555_sets_message_size :
    mail extC9 (some (str "FROM:<a@b> SIZE=5 X=1")) stC9 =
      ({ stC9 with messageSize := some 5 },
       [Output.sent (str "555 Unrecognized extension\r\n")]) ∧
    stC9.messageSize = none :=
  ⟨rfl, rfl⟩

/-- C8: for a `RCPT` with a parseable address and no parameters, when
both `_message_size` and `_max_size` hold (truthy) values, the
channel-capacity check computes `_max_size * (len(recipients) + 1)`; if
that projected total meets or exceeds `_max_size` the recipient is
refused with a 552, `recipientsTruncated` is set and nothing is
appended; otherwise the address is appended with a 250. -/
theorem rcpt_channel_capacity
    (ext : Env) (st : Session) (arg a : Str) (m n0 : Int)
    (hhelo : optStrTruthy st.helo = true)
    (hsender : optStrTruthy st.sender = true)
    (hmax : st.maxSize = some m) (hm : m ≠ 0)
    (hmsg : st.messageSize = some n0) (hn0 : n0 ≠ 0)
    (harg : arg ≠ [])
    (hparse : parse_addr ext (strip_keyword arg (str "TO:")) = (some a, []))
    (ha : a ≠ []) :
    (m ≤ m * ((st.recipients.length : Int) + 1) →
      rcpt ext (some arg) st =
        ({ st with recipientsTruncated := true },
         [sendLine (str "552 Channel size limit exceeded: " ++ a)])) ∧
    (m * ((st.recipients.length : Int) + 1) < m →
      rcpt ext (some arg) st =
        ({ st with recipients := st.recipients ++ [a] },
         [sendLine (str "250 Ok")])) := by
  have harg' : optStrTruthy (some arg) = true := by
    cases arg with
    | nil => exact absurd rfl harg
    | cons c cs => rfl
  have haE : a.isEmpty = false := by
    cases a with
    | nil => exact absurd rfl ha
    | cons c cs => rfl
  have hn0' : (n0 == 0) = false := by simpa using hn0
  have hm' : (m == 0) = false := by simpa using hm
  unfold rcpt
  simp only [hhelo, hsender, harg', Option.getD_some, hparse, hmax, hmsg,
    optIntTruthy, addrTruthy, haE, hn0', hm', Bool.not_true, Bool.not_false,
    Bool.and_self, List.isEmpty_nil, if_false, if_true, ite_true, ite_false]
  constructor
  · intro h
    rw [if_pos h]
    simp
  · intro h
    rw [if_neg (not_le.mpr h)]
    simp

/-- C8 witness: with `maxSize = 10`, `declaredMessageSize = 5` and no
recipient yet, the projected total `10 * 1` already meets the maximum,
so the very first `RCPT TO:<a@b>` is refused with the 552 response. -/
theorem rcpt_channel_capacity_witness :
    (10 : Int) ≤ 10 * (((stW8.recipients.length) : Int) + 1) ∧
    rcpt extW8 (some (str "TO:<a@b>")) stW8 =
      ({ stW8 with recipientsTruncated := true },
       [sendLine (str "552 Channel size limit exceeded: " ++ str "a@b")]) :=
  ⟨by decide,
   (rcpt_channel_capacity extW8 stW8 (str "TO:<a@b>") (str "a@b") 10 5
      rfl rfl rfl (by decide) rfl (by decide) (by decide) rfl (by decide)).1
     (by decide)⟩

/-- C10: a `MAIL` issued after a plain `HELO` greeting
(`_is_esmtp = False`, no sender yet) whose argument carries trailing
parameter text after a parseable address is rejected with the 501 syntax
error of line 279, leaving the session state entirely unchanged. -/
theorem mail_plain_helo_rejects_params
    (ext : Env) (st : Session) (arg addr rest : Str)
    (hhelo : optStrTruthy st.helo = true)
    (hesmtp : st.isEsmtp = false)
    (hsender : optStrTruthy st.sender = false)
    (harg : arg ≠ [])
    (hparse : parse_addr ext (strip_keyword arg (str "FROM:")) = (some addr, rest))
    (haddr : addr ≠ [])
    (hrest : rest ≠ []) :
    mail ext (some arg) st =
      (st, [sendLine (str "501 Syntax: MAIL FROM: <address>")]) := by
  have harg' : optStrTruthy (some arg) = true := by
    cases arg with
    | nil => exact absurd rfl harg
    | cons c cs => rfl
  have haddrE : addr.isEmpty = false := by
    cases addr with
    | nil => exact absurd rfl haddr
    | cons c cs => rfl
  have hrestE : rest.isEmpty = false := by
    cases rest with
    | nil => exact absurd rfl hrest
    | cons c cs => rfl
  unfold mail
  simp only [harg', hhelo, hsender, hesmtp, Option.getD_some, hparse,
    addrTruthy, haddrE, hrestE, Bool.not_true, Bool.not_false,
    Bool.and_self, Bool.true_and, Bool.false_and, ite_true, ite_false]
  simp

/-- C10 witness: after `HELO client`, the command
`MAIL FROM:<a@b> SIZE=99` (address `a@b`, trailing text `SIZE=99`) is
rejected with the 501 syntax response and the session is unchanged. -/
theorem mail_plain_helo_rejects_params_witness :
    mail extW10 (some (str "FROM:<a@b> SIZE=99")) stW10 =
      (stW10, [sendLine (str "501 Syntax: MAIL FROM: <address>")]) :=
  mail_plain_helo_rejects_params extW10 stW10 (str "FROM:<a@b> SIZE=99")
    (str "a@b") (str "SIZE=99") rfl rfl rfl (by decide) rfl (by decide)
    (by decide)

/-! ### Helper lemmas for the invariant and frame theorems -/

lemma optStrTruthy_of_strTruthy {t : Str} (h : strTruthy t = true) :
    optStrTruthy (some t) = true := by
  cases t with
  | nil => exact absurd h (by decide)
  | cons c cs => rfl

lemma inv_reset (st : Session) : Inv (reset_state st) := by
  intro h
  simp [reset_state, optStrTruthy] at h

lemma inv_helo (arg : Option Str) (st : Session) (h : Inv st) :
    Inv (helo arg st).1 := by
  unfold helo
  split
  · exact h
  · split
    · exact h
    · rename_i h1 h2
      intro _
      simpa using h2

lemma inv_ehlo {arg : Option Str} {st st' : Session} {outs : List Output}
    (he : ehlo arg st = .ok (st', outs)) (h : Inv st) : Inv st' := by
  unfold ehlo at he
  split at he
  · cases he; exact h
  · split at he
    · exact absurd he (by simp)
    · split at he
      · cases he; exact h
      · rename_i hh
        cases he
        intro _
        exact optStrTruthy_of_strTruthy (by simpa using hh)

lemma inv_vrfy (ext : Env) (arg : Option Str) (st : Session) (h : Inv st) :
    Inv (vrfy ext arg st).1 := by
  unfold vrfy
  split
  · exact h
  · split
    · exact h
    · split
      · exact h
      · exact h

lemma inv_rset (arg : Option Str) (st : Session) :
    Inv (rset arg st).1 := inv_reset st

lemma inv_mail (ext : Env) (arg : Option Str) (st : Session) (h : Inv st) :
    Inv (mail ext arg st).1 := by
  unfold mail
  split
  · exact h
  · split
    · exact h
    · split
      · exact h
      · rename_i h1 h2 h3
        dsimp only
        split
        · exact h
        · split
          · exact h
          · split
            · split
              · exact h
              · split
                · exact h
                · split
                  · intro _; simpa using h2
                  · split
                    · intro _; simpa using h2
                    · intro _; simpa using h2
            · intro _; simpa using h2

lemma inv_rcpt (ext : Env) (arg : Option Str) (st : Session) (h : Inv st) :
    Inv (rcpt ext arg st).1 := by
  unfold rcpt
  split
  · exact h
  · split
    · exact h
    · split
      · exact h
      · dsimp only
        split
        · exact h
        · split
          · exact h
          · split
            · split
              · exact h
              · exact h
            · exact h

lemma inv_data (arg : Option Str) (st : Session) (h : Inv st) :
    Inv (data arg st).1 := by
  unfold data
  split
  · exact h
  · split
    · exact h
    · split
      · exact h
      · split
        · exact h
        · exact h

lemma inv_noop (arg : Option Str) (st : Session) (h : Inv st) :
    Inv (noop arg st).1 := by
  unfold noop
  split
  · exact h
  · exact h

lemma inv_quit (arg : Option Str) (st : Session) (h : Inv st) :
    Inv (quit arg st).1 := by
  unfold quit
  split
  · exact h
  · exact h

lemma inv_expn (arg : Option Str) (st : Session) (h : Inv st) :
    Inv (expn arg st).1 := h

lemma ok_fst {x : Session × List Output} {st' : Session} {outs : List Output}
    (h : (Except.ok x : Except PyError (Session × List Output)) = .ok (st', outs)) :
    st' = x.1 := by
  have h' := Except.ok.inj h
  rw [h']

lemma inv_runCmd {c : Cmd} {ext : Env} {arg : Option Str}
    {st st' : Session} {outs : List Output}
    (hr : runCmd c ext arg st = .ok (st', outs)) (h : Inv st) : Inv st' := by
  cases c with
  | ehlo => exact inv_ehlo hr h
  | helo => rw [ok_fst hr]; exact inv_helo arg st h
  | vrfy => rw [ok_fst hr]; exact inv_vrfy ext arg st h
  | expn => rw [ok_fst hr]; exact inv_expn arg st h
  | rset => rw [ok_fst hr]; exact inv_rset arg st
  | mail => rw [ok_fst hr]; exact inv_mail ext arg st h
  | rcpt => rw [ok_fst hr]; exact inv_rcpt ext arg st h
  | data => rw [ok_fst hr]; exact inv_data arg st h
  | noop => rw [ok_fst hr]; exact inv_noop arg st h
  | quit => rw [ok_fst hr]; exact inv_quit arg st h

lemma inv_handle_command {ext : Env} {line : Str} {st st' : Session}
    {outs : List Output}
    (hr : handle_command ext line st = .ok (st', outs)) (h : Inv st) :
    Inv st' := by
  unfold handle_command at hr
  dsimp only at hr
  split at hr
  · exact absurd hr (by simp)
  · exact inv_runCmd hr h

lemma inv_read_command {ext : Env} {inp : CommandInput} {st st' : Session}
    {outs : List Output}
    (hr : read_command ext inp st = .ok (st', outs)) (h : Inv st) : Inv st' := by
  cases inp with
  | tooLong => rw [ok_fst hr]; exact h
  | line l => exact inv_handle_command hr h

lemma inv_handle_data (d : Str) (st : Session) (h : Inv st) :
    Inv (handle_data d st).1 := by
  unfold handle_data
  split
  · exact h
  · dsimp only
    exact inv_reset st

lemma inv_read_data {inp : DataInput} {st st' : Session} {outs : List Output}
    (hr : read_data inp st = (st', outs)) (h : Inv st) : Inv st' := by
  have h1 : st' = (read_data inp st).1 := by rw [hr]
  rw [h1]
  cases inp with
  | tooMuchData => exact h
  | block d => exact inv_handle_data d st h

lemma inv_reachable {st : Session} (h : Reachable st) : Inv st := by
  induction h with
  | init fqdn ms =>
    intro hs
    simp [init, optStrTruthy] at hs
  | cmd ext inp outs hre hr ih => exact inv_read_command hr ih
  | data inp outs hre hr ih => exact inv_read_data hr ih

lemma rcpt_ok_requires (ext : Env) (arg : Option Str) (st : Session) :
    (rcpt ext arg st).2 = [sendLine (str "250 Ok")] →
    optStrTruthy st.sender = true ∧ optStrTruthy st.helo = true := by
  unfold rcpt
  split
  · intro hout; dsimp only at hout; exact absurd hout (by decide)
  · split
    · intro hout; dsimp only at hout; exact absurd hout (by decide)
    · rename_i h1 h2
      intro _
      exact ⟨by simpa using h2, by simpa using h1⟩

lemma mail_ok_requires (ext : Env) (arg : Option Str) (st : Session) :
    (mail ext arg st).2 = [sendLine (str "250 Ok")] →
    optStrTruthy st.helo = true := by
  unfold mail
  split
  · intro hout; dsimp only at hout; exact absurd hout (by decide)
  · split
    · intro hout; dsimp only at hout; exact absurd hout (by decide)
    · rename_i h1 h2
      intro _
      simpa using h2

lemma startsWith_append_left (a b p : Str) (h : p.length ≤ a.length) :
    startsWith (a ++ b) p = startsWith a p := by
  induction p generalizing a with
  | nil => cases a <;> simp [startsWith]
  | cons c cs ih =>
    cases a with
    | nil => simp at h
    | cons x xs =>
      simp only [List.cons_append, List.append_eq, startsWith]
      rw [ih xs (by simpa using h)]

lemma startsWith_sentStr (line p : Str) (h : p.length ≤ line.length) :
    startsWith (sentStr line) p = startsWith line p := by
  unfold sentStr
  split
  · rfl
  · exact startsWith_append_left line LINE_TERM p h

lemma failCode_sentStr (a tail : Str) (h3 : 3 ≤ a.length) :
    failCode (sentStr (a ++ tail)) = failCode a := by
  unfold failCode
  have hl : ∀ p : Str, p.length = 3 →
      startsWith (sentStr (a ++ tail)) p = startsWith a p := by
    intro p hp
    rw [startsWith_sentStr _ _ (by simp [hp]; omega),
      startsWith_append_left a tail p (by omega)]
  rw [hl (str "501") rfl, hl (str "503") rfl, hl (str "555") rfl]

lemma frame_helo {arg : Option Str} {st st' : Session} {l : Str}
    (heq : helo arg st = (st', [Output.sent l]))
    (hcode : failCode l = true) :
    st' = { st with messageSize := st'.messageSize } ∧
    ((startsWith l (str "501") || startsWith l (str "503")) = true → st' = st) := by
  unfold helo at heq
  split at heq
  · simp only [Prod.mk.injEq, List.cons.injEq, sendLine, Output.sent.injEq,
      and_true] at heq
    obtain ⟨rfl, rfl⟩ := heq
    exact ⟨rfl, fun _ => rfl⟩
  · split at heq
    · simp only [Prod.mk.injEq, List.cons.injEq, sendLine, Output.sent.injEq,
        and_true] at heq
      obtain ⟨rfl, rfl⟩ := heq
      exact ⟨rfl, fun _ => rfl⟩
    · simp only [Prod.mk.injEq, List.cons.injEq, sendLine, Output.sent.injEq,
        and_true] at heq
      obtain ⟨rfl, rfl⟩ := heq
      rw [failCode_sentStr (str "250 ") st.fqdn (by decide)] at hcode
      exact absurd hcode (by decide)

lemma frame_ehlo {arg : Option Str} {st st' : Session} {l : Str}
    (heq : ehlo arg st = .ok (st', [Output.sent l]))
    (hcode : failCode l = true) :
    st' = { st with messageSize := st'.messageSize } ∧
    ((startsWith l (str "501") || startsWith l (str "503")) = true → st' = st) := by
  unfold ehlo at heq
  split at heq
  · simp only [Except.ok.injEq, Prod.mk.injEq, List.cons.injEq, sendLine,
      Output.sent.injEq, and_true] at heq
    obtain ⟨rfl, rfl⟩ := heq
    exact ⟨rfl, fun _ => rfl⟩
  · split at heq
    · exact absurd heq (by simp)
    · split at heq
      · simp only [Except.ok.injEq, Prod.mk.injEq, List.cons.injEq, sendLine,
          Output.sent.injEq, and_true] at heq
        obtain ⟨rfl, rfl⟩ := heq
        exact ⟨rfl, fun _ => rfl⟩
      · dsimp only at heq
        simp only [Except.ok.injEq, Prod.mk.injEq, List.cons.injEq, sendLine,
          Output.sent.injEq, and_true] at heq
        obtain ⟨rfl, rfl⟩ := heq
        cases hmx : optIntTruthy st.maxSize with
        | true =>
          rw [hmx] at hcode
          simp only [if_true, List.singleton_append, List.cons_append,
            List.nil_append, joinWith, List.append_assoc] at hcode
          rw [failCode_sentStr (str "250-") _ (by decide)] at hcode
          exact absurd hcode (by decide)
        | false =>
          rw [hmx] at hcode
          simp only [if_false, List.singleton_append, List.cons_append,
            List.nil_append, joinWith, List.append_assoc] at hcode
          rw [failCode_sentStr (str "250-") _ (by decide)] at hcode
          exact absurd hcode (by decide)

lemma frame_vrfy {ext : Env} {arg : Option Str} {st st' : Session} {l : Str}
    (heq : vrfy ext arg st = (st', [Output.sent l])) :
    st' = { st with messageSize := st'.messageSize } ∧
    ((startsWith l (str "501") || startsWith l (str "503")) = true → st' = st) := by
  unfold vrfy at heq
  split at heq
  · simp at heq
  · split at heq
    · simp only [Prod.mk.injEq, List.cons.injEq, sendLine, Output.sent.injEq,
        and_true] at heq
      obtain ⟨rfl, rfl⟩ := heq
      exact ⟨rfl, fun _ => rfl⟩
    · split at heq
      · simp at heq
      · simp at heq

lemma frame_rset {arg : Option Str} {st st' : Session} {l : Str}
    (heq : rset arg st = (st', [Output.sent l]))
    (hcode : failCode l = true) :
    st' = { st with messageSize := st'.messageSize } ∧
    ((startsWith l (str "501") || startsWith l (str "503")) = true → st' = st) := by
  unfold rset at heq
  simp only [Prod.mk.injEq, List.cons.injEq, sendLine, Output.sent.injEq,
    and_true] at heq
  obtain ⟨rfl, rfl⟩ := heq
  exact absurd hcode (by decide)

lemma frame_data {arg : Option Str} {st st' : Session} {l : Str}
    (heq : data arg st = (st', [Output.sent l]))
    (hcode : failCode l = true) :
    st' = { st with messageSize := st'.messageSize } ∧
    ((startsWith l (str "501") || startsWith l (str "503")) = true → st' = st) := by
  unfold data at heq
  split at heq
  · simp only [Prod.mk.injEq, List.cons.injEq, sendLine, Output.sent.injEq,
      and_true] at heq
    obtain ⟨rfl, rfl⟩ := heq
    exact ⟨rfl, fun _ => rfl⟩
  · split at heq
    · simp only [Prod.mk.injEq, List.cons.injEq, sendLine, Output.sent.injEq,
        and_true] at heq
      obtain ⟨rfl, rfl⟩ := heq
      exact ⟨rfl, fun _ => rfl⟩
    · split at heq
      · simp only [Prod.mk.injEq, List.cons.injEq, sendLine, Output.sent.injEq,
          and_true] at heq
        obtain ⟨rfl, rfl⟩ := heq
        exact ⟨rfl, fun _ => rfl⟩
      · split at heq
        · simp only [Prod.mk.injEq, List.cons.injEq, sendLine, Output.sent.injEq,
            and_true] at heq
          obtain ⟨rfl, rfl⟩ := heq
          exact ⟨rfl, fun _ => rfl⟩
        · simp only [Prod.mk.injEq, List.cons.injEq, sendLine, Output.sent.injEq,
            and_true] at heq
          obtain ⟨rfl, rfl⟩ := heq
          exact absurd hcode (by decide)

lemma frame_noop {arg : Option Str} {st st' : Session} {l : Str}
    (heq : noop arg st = (st', [Output.sent l]))
    (hcode : failCode l = true) :
    st' = { st with messageSize := st'.messageSize } ∧
    ((startsWith l (str "501") || startsWith l (str "503")) = true → st' = st) := by
  unfold noop at heq
  split at heq
  · simp only [Prod.mk.injEq, List.cons.injEq, sendLine, Output.sent.injEq,
      and_true] at heq
    obtain ⟨rfl, rfl⟩ := heq
    exact ⟨rfl, fun _ => rfl⟩
  · simp only [Prod.mk.injEq, List.cons.injEq, sendLine, Output.sent.injEq,
      and_true] at heq
    obtain ⟨rfl, rfl⟩ := heq
    exact absurd hcode (by decide)

lemma frame_quit {arg : Option Str} {st st' : Session} {l : Str}
    (heq : quit arg st = (st', [Output.sent l]))
    (hcode : failCode l = true) :
    st' = { st with messageSize := st'.messageSize } ∧
    ((startsWith l (str "501") || startsWith l (str "503")) = true → st' = st) := by
  unfold quit at heq
  split at heq
  · simp only [Prod.mk.injEq, List.cons.injEq, sendLine, Output.sent.injEq,
      and_true] at heq
    obtain ⟨rfl, rfl⟩ := heq
    exact ⟨rfl, fun _ => rfl⟩
  · simp only [Prod.mk.injEq, List.cons.injEq, sendLine, Output.sent.injEq,
      and_true] at heq
    obtain ⟨rfl, rfl⟩ := heq
    exact absurd hcode (by decide)

lemma frame_expn {arg : Option Str} {st st' : Session} {l : Str}
    (heq : expn arg st = (st', [Output.sent l]))
    (hcode : failCode l = true) :
    st' = { st with messageSize := st'.messageSize } ∧
    ((startsWith l (str "501") || startsWith l (str "503")) = true → st' = st) := by
  unfold expn at heq
  simp only [Prod.mk.injEq, List.cons.injEq, sendLine, Output.sent.injEq,
    and_true] at heq
  obtain ⟨rfl, rfl⟩ := heq
  exact absurd hcode (by decide)

lemma frame_rcpt {ext : Env} {arg : Option Str} {st st' : Session} {l : Str}
    (heq : rcpt ext arg st = (st', [Output.sent l]))
    (hcode : failCode l = true) :
    st' = { st with messageSize := st'.messageSize } ∧
    ((startsWith l (str "501") || startsWith l (str "503")) = true → st' = st) := by
  unfold rcpt at heq
  split at heq
  · simp only [Prod.mk.injEq, List.cons.injEq, sendLine, Output.sent.injEq,
      and_true] at heq
    obtain ⟨rfl, rfl⟩ := heq
    exact ⟨rfl, fun _ => rfl⟩
  · split at heq
    · simp only [Prod.mk.injEq, List.cons.injEq, sendLine, Output.sent.injEq,
        and_true] at heq
      obtain ⟨rfl, rfl⟩ := heq
      exact ⟨rfl, fun _ => rfl⟩
    · split at heq
      · simp only [Prod.mk.injEq, List.cons.injEq, sendLine, Output.sent.injEq,
          and_true] at heq
        obtain ⟨rfl, rfl⟩ := heq
        exact ⟨rfl, fun _ => rfl⟩
      · dsimp only at heq
        split at heq
        · simp only [Prod.mk.injEq, List.cons.injEq, sendLine, Output.sent.injEq,
            and_true] at heq
          obtain ⟨rfl, rfl⟩ := heq
          exact ⟨rfl, fun _ => rfl⟩
        · split at heq
          · simp only [Prod.mk.injEq, List.cons.injEq, sendLine, Output.sent.injEq,
              and_true] at heq
            obtain ⟨rfl, rfl⟩ := heq
            exact ⟨rfl, fun _ => rfl⟩
          · split at heq
            · split at heq
              · simp only [Prod.mk.injEq, List.cons.injEq, sendLine,
                  Output.sent.injEq, and_true] at heq
                obtain ⟨rfl, rfl⟩ := heq
                rw [failCode_sentStr (str "552 Channel size limit exceeded: ") _
                  (by decide)] at hcode
                exact absurd hcode (by decide)
              · simp only [Prod.mk.injEq, List.cons.injEq, sendLine,
                  Output.sent.injEq, and_true] at heq
                obtain ⟨rfl, rfl⟩ := heq
                exact absurd hcode (by decide)
            · simp only [Prod.mk.injEq, List.cons.injEq, sendLine,
                Output.sent.injEq, and_true] at heq
              obtain ⟨rfl, rfl⟩ := heq
              exact absurd hcode (by decide)

lemma frame_mail {ext : Env} {arg : Option Str} {st st' : Session} {l : Str}
    (heq : mail ext arg st = (st', [Output.sent l]))
    (hcode : failCode l = true) :
    st' = { st with messageSize := st'.messageSize } ∧
    ((startsWith l (str "501") || startsWith l (str "503")) = true → st' = st) := by
  unfold mail at heq
  split at heq
  · simp only [Prod.mk.injEq, List.cons.injEq, sendLine, Output.sent.injEq,
      and_true] at heq
    obtain ⟨rfl, rfl⟩ := heq
    exact ⟨rfl, fun _ => rfl⟩
  · split at heq
    · simp only [Prod.mk.injEq, List.cons.injEq, sendLine, Output.sent.injEq,
        and_true] at heq
      obtain ⟨rfl, rfl⟩ := heq
      exact ⟨rfl, fun _ => rfl⟩
    · split at heq
      · simp only [Prod.mk.injEq, List.cons.injEq, sendLine, Output.sent.injEq,
          and_true] at heq
        obtain ⟨rfl, rfl⟩ := heq
        exact ⟨rfl, fun _ => rfl⟩
      · dsimp only at heq
        split at heq
        · simp only [Prod.mk.injEq, List.cons.injEq, sendLine, Output.sent.injEq,
            and_true] at heq
          obtain ⟨rfl, rfl⟩ := heq
          exact ⟨rfl, fun _ => rfl⟩
        · split at heq
          · simp only [Prod.mk.injEq, List.cons.injEq, sendLine, Output.sent.injEq,
              and_true] at heq
            obtain ⟨rfl, rfl⟩ := heq
            exact ⟨rfl, fun _ => rfl⟩
          · split at heq
            · split at heq
              · simp only [Prod.mk.injEq, List.cons.injEq, sendLine,
                  Output.sent.injEq, and_true] at heq
                obtain ⟨rfl, rfl⟩ := heq
                exact ⟨rfl, fun _ => rfl⟩
              · split at heq
                · simp only [Prod.mk.injEq, List.cons.injEq, sendLine,
                    Output.sent.injEq, and_true] at heq
                  obtain ⟨rfl, rfl⟩ := heq
                  exact ⟨rfl, fun _ => rfl⟩
                · split at heq
                  · simp only [Prod.mk.injEq, List.cons.injEq, sendLine,
                      Output.sent.injEq, and_true] at heq
                    obtain ⟨rfl, rfl⟩ := heq
                    exact absurd hcode (by decide)
                  · split at heq
                    · simp only [Prod.mk.injEq, List.cons.injEq, sendLine,
                        Output.sent.injEq, and_true] at heq
                      obtain ⟨rfl, rfl⟩ := heq
                      exact ⟨rfl, fun hc => absurd hc (by decide)⟩
                    · simp only [Prod.mk.injEq, List.cons.injEq, sendLine,
                        Output.sent.injEq, and_true] at heq
                      obtain ⟨rfl, rfl⟩ := heq
                      exact absurd hcode (by decide)
            · simp only [Prod.mk.injEq, List.cons.injEq, sendLine,
                Output.sent.injEq, and_true] at heq
              obtain ⟨rfl, rfl⟩ := heq
              exact absurd hcode (by decide)

/-- C7: in every reachable session state, `sender` is set only while
`greetingDomain` (`_helo`) is set; moreover `RCPT` answers 250 only when
both a sender and a greeting are present (so only after a successful
`MAIL`), and `MAIL` answers 250 only when a greeting is present (so only
after a successful `HELO`/`EHLO`). -/
theorem sender_requires_greeting (s : Session) (h : Reachable s) :
    (optStrTruthy s.sender = true → optStrTruthy s.helo = true) ∧
    (∀ (ext : Env) (arg : Option Str),
      (rcpt ext arg s).2 = [sendLine (str "250 Ok")] →
        optStrTruthy s.sender = true ∧ optStrTruthy s.helo = true) ∧
    (∀ (ext : Env) (arg : Option Str),
      (mail ext arg s).2 = [sendLine (str "250 Ok")] →
        optStrTruthy s.helo = true) :=
  ⟨inv_reachable h, fun ext arg => rcpt_ok_requires ext arg s,
   fun ext arg => mail_ok_requires ext arg s⟩

/-- C7 witness: the property instantiated at the freshly constructed
(trivially reachable) session. -/
theorem sender_requires_greeting_witness :
    Reachable s0 ∧
    ((optStrTruthy s0.sender = true → optStrTruthy s0.helo = true) ∧
     (∀ (ext : Env) (arg : Option Str),
       (rcpt ext arg s0).2 = [sendLine (str "250 Ok")] →
         optStrTruthy s0.sender = true ∧ optStrTruthy s0.helo = true) ∧
     (∀ (ext : Env) (arg : Option Str),
       (mail ext arg s0).2 = [sendLine (str "250 Ok")] →
         optStrTruthy s0.helo = true)) :=
  ⟨Reachable.init (str "localhost") none,
   sender_requires_greeting s0 (Reachable.init (str "localhost") none)⟩

/-- C9 amended: every handler invocation that answers with a 501, 503 or
555 failure response leaves all session fields except
`declaredMessageSize` (`_message_size`) unchanged, and a 501 or 503
response leaves the state entirely unchanged; only `mail`'s 555 path can
have recorded `_message_size` (from a valid SIZE parameter processed
before the unrecognized one). -/
theorem failure_responses_preserve_state
    (c : Cmd) (ext : Env) (arg : Option Str) (st st' : Session) (l : Str)
    (hrun : runCmd c ext arg st = .ok (st', [Output.sent l]))
    (hcode : failCode l = true) :
    st' = { st with messageSize := st'.messageSize } ∧
    ((startsWith l (str "501") || startsWith l (str "503")) = true → st' = st) := by
  cases c with
  | helo => exact frame_helo (Except.ok.inj hrun) hcode
  | ehlo => exact frame_ehlo hrun hcode
  | vrfy => exact frame_vrfy (Except.ok.inj hrun)
  | expn => exact frame_expn (Except.ok.inj hrun) hcode
  | rset => exact frame_rset (Except.ok.inj hrun) hcode
  | mail => exact frame_mail (Except.ok.inj hrun) hcode
  | rcpt => exact frame_rcpt (Except.ok.inj hrun) hcode
  | data => exact frame_data (Except.ok.inj hrun) hcode
  | noop => exact frame_noop (Except.ok.inj hrun) hcode
  | quit => exact frame_quit (Except.ok.inj hrun) hcode

/-- C9 amended witness: `NOOP x` answers 501 and the state is unchanged. -/
theorem failure_responses_preserve_state_witness :
    runCmd .noop extNone (some (str "x")) s0 =
      .ok (s0, [Output.sent (str "501 Syntax: NOOP\r\n")]) ∧
    failCode (str "501 Syntax: NOOP\r\n") = true ∧
    (s0 = { s0 with messageSize := s0.messageSize } ∧
     ((startsWith (str "501 Syntax: NOOP\r\n") (str "501") ||
       startsWith (str "501 Syntax: NOOP\r\n") (str "503")) = true → s0 = s0)) :=
  ⟨rfl, by decide,
   failure_responses_preserve_state .noop extNone (some (str "x")) s0 s0
     (str "501 Syntax: NOOP\r\n") rfl (by decide)⟩
